import Mathlib

/-!
# Ursa Minor — request admission & translation pipeline, shallow embedding

A shallow embedding of the request pipeline of the ursa-minor proxy
(`src/mojang.rs`, `src/hypixel.rs`, `src/main.rs`): the session token codec,
the auth session manager, the rule-based path translator, the store-backed
rate limiter and the response decoration, together with theorems checking the
natural-language specification against this embedding.

Modelling conventions:
* `u64` timestamps become `Nat`; `u64::MAX` is `U64MAX`.
* The keyed HMAC-SHA384 of the `jwt` crate is an abstract deterministic
  function `mac : JWTPrincipal → Nat`; signing stores `mac p` as the tag,
  verification recomputes the tag and compares, exactly the JWT discipline.
  Theorems quantify over `mac`.
* External effects (the Mojang identity call, the Hypixel upstream call, the
  store transport) are passed in as explicit outcome values; functions return,
  next to their result, the store state and which external calls were made.
* An `anyhow` error propagating out of a handler is an explicit
  `internalError` constructor: `wrap_error` in `src/main.rs` turns it into a
  plain 500 response carrying a fresh correlation id and no other headers.
-/

namespace UrsaMinor

/-- Constant `u64::MAX`: timestamps in the source are `u64`. -/
def U64MAX : Nat := 2 ^ 64 - 1

/-- Structure `JWTPrincipal` from `src/mojang.rs`: an identity plus a validity window of
millisecond timestamps. -/
structure JWTPrincipal where
  id : Nat
  name : String
  valid_until : Nat
  valid_since : Nat
deriving DecidableEq, Repr

/-- A signed token: the wire form of a `JWTPrincipal` plus an integrity tag.
A readable header whose signature does not match is a `SignedToken` with a
wrong `tag`; an unreadable or absent header is modelled as no token at all. -/
structure SignedToken where
  principal : JWTPrincipal
  tag : Nat
deriving DecidableEq, Repr

/-- Model of `SignWithKey::sign_with_key`: attach the keyed MAC of the payload. -/
def signToken (mac : JWTPrincipal → Nat) (p : JWTPrincipal) : SignedToken :=
  { principal := p, tag := mac p }

/-- Model of `VerifyWithKey::verify_with_key`: recompute the MAC and compare; on
mismatch the source returns an `Err`, modelled as `none`. -/
def verifyToken (mac : JWTPrincipal → Nat) (t : SignedToken) : Option JWTPrincipal :=
  if t.tag = mac t.principal then some t.principal else none

/-- The three request headers the auth pipeline consumes
(`x-ursa-token`, `x-ursa-username`, `x-ursa-serverid`). -/
structure UrsaRequest where
  x_ursa_token : Option SignedToken
  x_ursa_username : Option String
  x_ursa_serverid : Option String
deriving DecidableEq, Repr

/-- A response header value: a plain string, or a signed token placed on the
wire (the source serialises the token; we keep it structured). -/
inductive HVal where
  | str (s : String)
  | tok (t : SignedToken)
deriving DecidableEq, Repr

/-- The caller-facing response: status, body, and headers in append order. -/
structure UrsaResponse where
  status : Nat
  body : String
  headers : List (String × HVal)
deriving DecidableEq, Repr

/-- Function `make_error` from `src/main.rs`: a bare response whose body is
`"{status_code} {error_text}"`. -/
def make_error (status_code : Nat) (error_text : String) : UrsaResponse :=
  { status := status_code, body := toString status_code ++ " " ++ error_text,
    headers := [] }

/-- Enum `SaveOnExit` from `src/mojang.rs`: the save directive. -/
inductive SaveOnExit where
  | DontSave
  | SaveExpires (timestamp : Nat)
  | Save (principal : JWTPrincipal)
deriving DecidableEq, Repr

/-- Method `SaveOnExit::save_to`: append the directive's headers to a response.
`Save` signs the principal and appends `x-ursa-token` then `x-ursa-expires`;
`SaveExpires` appends `x-ursa-expires` only; `DontSave` appends nothing. -/
def SaveOnExit.save_to (mac : JWTPrincipal → Nat) :
    SaveOnExit → UrsaResponse → UrsaResponse
  | .DontSave, r => r
  | .SaveExpires t, r =>
      { r with headers := r.headers ++ [("x-ursa-expires", .str (toString t))] }
  | .Save p, r =>
      { r with headers := r.headers ++
          [("x-ursa-token", .tok (signToken mac p)),
           ("x-ursa-expires", .str (toString p.valid_until))] }

/-- Structure `MojangUser` from `src/mojang.rs`. -/
structure MojangUser where
  id : Nat
  name : String
deriving DecidableEq, Repr

/-- Observed behaviour of the external identity service for one request:
either the transport fails (an `anyhow` error at the `await?`), or an HTTP
status arrives whose body may (`some`) or may not (`none`) parse as a
`MojangUser`. -/
inductive MojangResult where
  | transportError
  | status (code : Nat) (user : Option MojangUser)
deriving DecidableEq, Repr

/-- Structure `Rule` from `src/hypixel.rs`. -/
structure Rule where
  http_path : String
  hypixel_path : String
  query_arguments : List String
deriving DecidableEq, Repr

/-- Method `Rule::accumulated_statistics_key`. -/
def Rule.accumulated_statistics_key (r : Rule) : String :=
  "hypixel:accumulated:" ++ r.http_path

/-- The per-rule request statistic key, `format!("hypixel:request:{}", ...)`
inlined in the pipeline of `src/hypixel.rs`. -/
def Rule.request_statistics_key (r : Rule) : String :=
  "hypixel:request:" ++ r.http_path

/-- Modelled from the spec: `JWTPrincipal::ratelimit_key` is called in
`src/hypixel.rs` but its definition is not among the given sources; §3 of the
spec says the rate bucket key is "derived deterministically from the
Principal's identity (e.g. `ratelimit:<id>`)". -/
def JWTPrincipal.ratelimit_key (p : JWTPrincipal) : String :=
  "ratelimit:" ++ toString p.id

/-- The fields of `GlobalApplicationContext` (`src/main.rs`) the pipeline
reads. Durations are kept in the units the pipeline uses: the token duration
in milliseconds (it is added to a millisecond timestamp), the rate-limit
lifespan in seconds (`as_secs()` is sent to the store). -/
structure Config where
  allow_anonymous : Bool
  rules : List Rule
  default_token_duration : Nat
  rate_limit_lifespan : Nat
  rate_limit_bucket : Nat
deriving Repr

/-- Function `verify_existing_login` from `src/mojang.rs`. `Except Unit` mirrors
`anyhow::Result`: `.error ()` is the `Err` produced by a failed signature
check or by the `bail!` on a violated validity window; `.ok none` is a missing
(or unreadable) token header. -/
def verify_existing_login (mac : JWTPrincipal → Nat) (req : UrsaRequest)
    (now : Nat) : Except Unit (Option JWTPrincipal) :=
  match req.x_ursa_token with
  | none => .ok none
  | some token =>
    match verifyToken mac token with
    | none => .error ()
    | some claims =>
      if claims.valid_since > now || claims.valid_until < now then .error ()
      else .ok (some claims)

/-- Outcome of `verify_login_attempt` (`anyhow::Result<Result<_, Response>>`):
an `anyhow` error, a terminal response (`Ok(Err(r))`), or a fresh principal. -/
inductive LoginAttempt where
  | internalError
  | rejected (r : UrsaResponse)
  | minted (p : JWTPrincipal)
deriving DecidableEq, Repr

/-- Function `verify_login_attempt` from `src/mojang.rs`. The returned `Bool` records
whether the external identity call was issued. -/
def verify_login_attempt (now : Nat) (cfg : Config) (mojang : MojangResult)
    (req : UrsaRequest) : LoginAttempt × Bool :=
  match req.x_ursa_username with
  | none => (.rejected (make_error 400 "Missing username to authenticate"), false)
  | some _ =>
    match req.x_ursa_serverid with
    | none => (.rejected (make_error 400 "Missing serverid to authenticate"), false)
    | some _ =>
      match mojang with
      | .transportError => (.internalError, true)
      | .status code user =>
        if code ≠ 200 then (.rejected (make_error 401 "Unauthorized"), true)
        else
          match user with
          | none => (.internalError, true)
          | some u =>
            (.minted { id := u.id, name := u.name,
                       valid_until := now + cfg.default_token_duration,
                       valid_since := now }, true)

/-- Outcome of `require_login`: an `anyhow` error, a terminal response
(the `Err(response)` early-returned by the `require_login!` macro), or an
authenticated principal together with the save directive. -/
inductive RequireLogin where
  | internalError
  | response (r : UrsaResponse)
  | authed (save : SaveOnExit) (p : JWTPrincipal)
deriving DecidableEq, Repr

/-- The fixed principal synthesized when anonymous mode is on. -/
def anonymousPrincipal : JWTPrincipal :=
  { id := 0, name := "CoolGuy123", valid_until := U64MAX, valid_since := 0 }

/-- The tail of `require_login`: a `verify_login_attempt` outcome, lifted into
a `require_login` outcome; a minted principal is paired with the `Save`
directive. -/
def liftAttempt : LoginAttempt × Bool → RequireLogin × Bool
  | (.internalError, b) => (.internalError, b)
  | (.rejected r, b) => (.response r, b)
  | (.minted p, b) => (.authed (.Save p) p, b)

/-- Function `require_login` from `src/mojang.rs`. The returned `Bool` records whether
the external identity call was issued. -/
def require_login (mac : JWTPrincipal → Nat) (now : Nat) (cfg : Config)
    (mojang : MojangResult) (req : UrsaRequest) : RequireLogin × Bool :=
  if cfg.allow_anonymous then
    (.authed .DontSave anonymousPrincipal, false)
  else
    match verify_existing_login mac req now with
    | .error () => (.response (make_error 401 "Failed to verify JWT"), false)
    | .ok (some principal) =>
        (.authed (.SaveExpires principal.valid_until) principal, false)
    | .ok none => liftAttempt (verify_login_attempt now cfg mojang req)

/-- One hex digit, uppercase, as emitted by the `url` crate's percent
encoding. -/
def hexDigitChar (n : Nat) : Char :=
  if n < 10 then Char.ofNat (48 + n) else Char.ofNat (55 + n)

/-- Bytes the `application/x-www-form-urlencoded` serializer of the `url`
crate leaves unencoded: ASCII alphanumerics and `*`, `-`, `.`, `_`. -/
def formByteSafe (b : Nat) : Bool :=
  (0x30 ≤ b && b ≤ 0x39) || (0x41 ≤ b && b ≤ 0x5A) || (0x61 ≤ b && b ≤ 0x7A) ||
  b == 0x2A || b == 0x2D || b == 0x2E || b == 0x5F

/-- Encode one byte: space becomes `+`, safe bytes stay, the rest are
percent-encoded with uppercase hex. -/
def encodeFormByte (b : Nat) : List Char :=
  if b = 0x20 then ['+']
  else if formByteSafe b then [Char.ofNat b]
  else ['%', hexDigitChar (b / 16), hexDigitChar (b % 16)]

/-- The UTF-8 bytes of a string (the reference model of `String.toUTF8`). -/
def utf8Bytes (s : String) : List UInt8 := s.data.flatMap String.utf8EncodeChar

/-- URL-encode a string the way `Url::parse_with_params` encodes query names
and values: byte-wise over the UTF-8 encoding. -/
def urlencode (s : String) : String :=
  ⟨((utf8Bytes s).map (fun b => encodeFormByte b.toNat)).flatten⟩

/-- One `name=value` query pair, both sides URL-encoded. -/
def encodeQueryPair (p : String × String) : String :=
  urlencode p.1 ++ "=" ++ urlencode p.2

/-- Model of `Url::parse_with_params base pairs` for a base URL without a query string
(as all configured `hypixel-path`s are): append `?` and the `&`-joined
encoded pairs, in order. -/
def buildUrl (base : String) (pairs : List (String × String)) : String :=
  base ++ "?" ++ String.intercalate "&" (pairs.map encodeQueryPair)

/-- Rust's `split(c)` on a character list: cut at every separator, keeping
empty pieces (so the result is never empty). -/
def splitChar (c : Char) : List Char → List (List Char)
  | [] => [[]]
  | x :: xs =>
    match splitChar c xs with
    | [] => [[]]
    | y :: ys => if x = c then [] :: y :: ys else (x :: y) :: ys

/-- Expression `prefix.split('/').filter(|it| !it.is_empty())` from `src/hypixel.rs`. -/
def splitSegments (s : String) : List String :=
  ((splitChar '/' s.data).map String.mk).filter (fun seg => seg ≠ "")

/-- Character-list core of Rust's `str::strip_prefix`. -/
def dropLeadingChars : List Char → List Char → Option (List Char)
  | [], s => some s
  | _ :: _, [] => none
  | p :: ps, c :: cs => if p = c then dropLeadingChars ps cs else none

/-- Rust `path.strip_prefix(&rule.http_path)`: the rest of `path` after the leading
occurrence of `pre`, when `pre` leads `path`. -/
def dropLeading (path pre : String) : Option String :=
  (dropLeadingChars pre.data path.data).map String.mk

/-- The rule loop header of `hypixel::respond_to`: the first rule whose
`http_path` leads the request path, with the remaining path. -/
def findRule : List Rule → String → Option (Rule × String)
  | [], _ => none
  | r :: rest, path =>
    match dropLeading path r.http_path with
    | some rem => some (r, rem)
    | none => findRule rest path

/-- Rust's `{:?}` rendering of a string slice: the value in double quotes
(escaping of exotic characters is not modelled; path segments are plain
text). -/
def rustDebug (s : String) : String := "\"" ++ s ++ "\""

/-- The argument-collection loop of `hypixel::respond_to`: pair each declared
query argument with the next path segment; too few segments is a 400 naming
the first unfilled argument, too many is a 400 naming the first extra
segment. -/
def collectQuery : List String → List String →
    Except UrsaResponse (List (String × String))
  | [], [] => .ok []
  | [], extra :: _ =>
      .error (make_error 400 ("Superfluous query argument " ++ rustDebug extra))
  | arg :: _, [] =>
      .error (make_error 400 ("Missing query argument " ++ arg))
  | arg :: args, part :: parts =>
    match collectQuery args parts with
    | .error r => .error r
    | .ok rest => .ok ((arg, part) :: rest)

/-- Modelled from the spec (§6): the shared store is "a key/value store
exposing atomic pipelined increment/expire-with-NX semantics". Plain counters
(`INCR`), sorted-set member scores (`ZINCRBY`) and per-key expiries are held
separately; keys not yet written hold 0. -/
structure RedisStore where
  counters : String → Nat
  zsets : String → String → Nat
  expiries : String → Option Nat

/-- Command `ZINCRBY key 1 member`. -/
def zincrStore (st : RedisStore) (key member : String) : RedisStore :=
  { st with zsets := fun k m =>
      if k = key ∧ m = member then st.zsets k m + 1 else st.zsets k m }

/-- Command `EXPIRE key ttl NX`: set the expiry only when the key has none yet. -/
def expireNX (st : RedisStore) (key : String) (ttl : Nat) : RedisStore :=
  match st.expiries key with
  | some _ => st
  | none => { st with expiries := fun k =>
      if k = key then some ttl else st.expiries k }

/-- Command `INCR key`, returning the post-increment value. -/
def incrStore (st : RedisStore) (key : String) : RedisStore × Nat :=
  let v := st.counters key + 1
  ({ st with counters := fun k => if k = key then v else st.counters k }, v)

/-- The single pipelined unit of `hypixel::respond_to`, in command order:
`ZINCRBY` the per-rule request statistic, `EXPIRE <bucket> <lifespan> NX`,
`INCR <bucket>` (whose reply is the value the limiter reads), `INCR` the
rule's accumulated counter. Returns the post state and the bucket usage. -/
def runPipeline (cfg : Config) (rule : Rule) (diagnostics_key bucket : String)
    (st : RedisStore) : RedisStore × Nat :=
  let st1 := zincrStore st rule.request_statistics_key diagnostics_key
  let st2 := expireNX st1 bucket cfg.rate_limit_lifespan
  let p := incrStore st2 bucket
  ((incrStore p.1 rule.accumulated_statistics_key).1, p.2)

/-- Key `diagnostics_key`: the path segments joined with `:`. -/
def diagnosticsKey (parts : List String) : String :=
  String.intercalate ":" parts

/-- Observed behaviour of the Hypixel upstream for one request: transport
failure (an `anyhow` error at the `await?`) or an HTTP status with a body. -/
inductive UpstreamResult where
  | transportError
  | status (code : Nat) (body : String)
deriving DecidableEq, Repr

/-- The external world one request runs against: the identity-service
outcome, the upstream outcome, and the two store failure modes of the source
(`send_packed_commands` erroring at the `await?`, and the pipeline reply not
carrying an integer at position 2). -/
structure Env where
  mojang : MojangResult
  upstream : UpstreamResult
  redisTransportError : Bool
  redisMalformed : Bool
deriving DecidableEq, Repr

/-- Outcome of `hypixel::respond_to` (`anyhow::Result<Option<Response>>`):
an `anyhow` error, `Ok(None)` when no rule matched, or `Ok(Some(r))`. -/
inductive HResult where
  | internalError
  | noMatch
  | resp (r : UrsaResponse)
deriving DecidableEq, Repr

/-- Function `hypixel::respond_to` from `src/hypixel.rs`. Returns the outcome, the
store state after the request, and the URL of the upstream call when one was
issued (`none` means the upstream was never contacted). -/
def hypixel_respond_to (cfg : Config) (env : Env) (st : RedisStore)
    (path : String) (principal : JWTPrincipal) :
    HResult × RedisStore × Option String :=
  match findRule cfg.rules path with
  | none => (.noMatch, st, none)
  | some (rule, rem) =>
    let parts := splitSegments rem
    match collectQuery rule.query_arguments parts with
    | .error r => (.resp r, st, none)
    | .ok query_parts =>
      let url := buildUrl rule.hypixel_path query_parts
      let bucket := principal.ratelimit_key
      if env.redisTransportError then (.internalError, st, none)
      else
        let run := runPipeline cfg rule (diagnosticsKey parts) bucket st
        if env.redisMalformed then (.resp (make_error 500 "Redis failure"), run.1, none)
        else if run.2 > cfg.rate_limit_bucket ∧ ¬cfg.allow_anonymous then
          (.resp (make_error 429 "Rate limit exceeded"), run.1, none)
        else
          match env.upstream with
          | .transportError => (.internalError, run.1, some url)
          | .status code body =>
            if code ≠ 200 then
              (.resp (make_error 502 "Failed to request hypixel upstream"), run.1, some url)
            else
              (.resp { status := 200, body := body,
                       headers := [("Age", .str "0"),
                                   ("Cache-Control", .str "public, s-maxage=60, max-age=300"),
                                   ("Content-Type", .str "application/json")] },
               run.1, some url)

/-- The final outcome of one request as `wrap_error` sees it: either the
handler's `anyhow` error became a bare 500 with a fresh correlation id, or a
response travelled out. -/
inductive Final where
  | internalError500
  | resp (r : UrsaResponse)
deriving DecidableEq, Repr

/-- The `/v1/hypixel/` branch of `respond_to` in `src/main.rs`, composed with
`wrap_error`: authenticate, run the hypixel handler, and decorate a produced
response with the save directive. `hypixel_path` is the path after the
`/v1/hypixel/` marker, `fullPath` the original path (used by the 404 text).
Returns the final outcome, the store state, whether the identity service was
called, and the upstream URL when the upstream was called. -/
def handle_hypixel (mac : JWTPrincipal → Nat) (now : Nat) (cfg : Config)
    (env : Env) (st : RedisStore) (req : UrsaRequest)
    (hypixel_path fullPath : String) :
    Final × RedisStore × Bool × Option String :=
  match require_login mac now cfg env.mojang req with
  | (.internalError, mcall) => (.internalError500, st, mcall, none)
  | (.response r, mcall) => (.resp r, st, mcall, none)
  | (.authed save principal, mcall) =>
    match hypixel_respond_to cfg env st hypixel_path principal with
    | (.internalError, st', up) => (.internalError500, st', mcall, up)
    | (.noMatch, st', _) =>
        (.resp (make_error 404 ("Unknown request path " ++ fullPath)), st', mcall, none)
    | (.resp r, st', up) => (.resp (SaveOnExit.save_to mac save r), st', mcall, up)

/-! ## Concrete fixtures used by witnesses and counterexamples -/

/-- A concrete MAC instance. -/
def macZero : JWTPrincipal → Nat := fun _ => 0

/-- A concrete rule, the end-to-end example of the spec. -/
def testRule : Rule :=
  { http_path := "player", hypixel_path := "https://api.hypixel.net/player",
    query_arguments := ["uuid"] }

/-- A concrete configuration with anonymous mode off and threshold 2. -/
def testConfig : Config :=
  { allow_anonymous := false, rules := [testRule],
    default_token_duration := 3600000, rate_limit_lifespan := 60,
    rate_limit_bucket := 2 }

/-- The same configuration with anonymous mode on. -/
def anonConfig : Config := { testConfig with allow_anonymous := true }

/-- A store in which nothing has been written yet. -/
def emptyStore : RedisStore :=
  { counters := fun _ => 0, zsets := fun _ _ => 0, expiries := fun _ => none }

/-- A concrete externally verified identity. -/
def aliceUser : MojangUser := { id := 7, name := "Alice" }

/-- A healthy environment: identity service confirms, upstream answers 200. -/
def okEnv : Env :=
  { mojang := .status 200 (some aliceUser), upstream := .status 200 "{}",
    redisTransportError := false, redisMalformed := false }

/-- A first-time request: no token, both identity headers present. -/
def freshReq : UrsaRequest :=
  { x_ursa_token := none, x_ursa_username := some "Alice",
    x_ursa_serverid := some "s1" }

/-- A token whose integrity tag does not verify under `macZero`
(the tag is 1, the MAC of everything is 0). -/
def badTagTok : SignedToken :=
  { principal := { id := 7, name := "Alice", valid_until := 9999, valid_since := 0 },
    tag := 1 }

/-- A request presenting `badTagTok`. -/
def badTagReq : UrsaRequest :=
  { freshReq with x_ursa_token := some badTagTok }

/-- A principal for token-roundtrip fixtures. -/
def goodPrincipal : JWTPrincipal :=
  { id := 7, name := "Alice", valid_until := 9999, valid_since := 0 }

/-- Token fixture: `goodPrincipal` signed under `macZero`. -/
def goodTok : SignedToken := signToken macZero goodPrincipal

/-- A request presenting `goodTok`. -/
def goodTokReq : UrsaRequest := { freshReq with x_ursa_token := some goodTok }

/-- The principal `verify_login_attempt` mints for `aliceUser` at `now = 5`
under `testConfig`. -/
def mintedAlice : JWTPrincipal :=
  { id := 7, name := "Alice", valid_until := 3600005, valid_since := 5 }

/-- Environment fixture: `okEnv` with the identity-service transport
failing. -/
def transportFailEnv : Env := { okEnv with mojang := .transportError }

/-- The decorated 200 response `hypixel::respond_to` builds for `okEnv`. -/
def okResp200 : UrsaResponse :=
  { status := 200, body := "{}",
    headers := [("Age", .str "0"),
                ("Cache-Control", .str "public, s-maxage=60, max-age=300"),
                ("Content-Type", .str "application/json")] }

/-- A store in which `mintedAlice`'s bucket already holds two uses. -/
def twoUsedStore : RedisStore :=
  { emptyStore with
    counters := fun k => if k = mintedAlice.ratelimit_key then 2 else 0 }

/-- The status the caller observes for a final outcome (`wrap_error` renders
the internal-error case as a 500). -/
def finalStatus : Final → Nat
  | .internalError500 => 500
  | .resp r => r.status

/-- Whether a header list carries neither `x-ursa-token` nor
`x-ursa-expires`. -/
def headersClean (hs : List (String × HVal)) : Bool :=
  hs.all (fun hd => (hd.1 != "x-ursa-token") && (hd.1 != "x-ursa-expires"))

/-- Whether a final outcome carries neither `x-ursa-token` nor
`x-ursa-expires`. -/
def noAuthHeaders : Final → Bool
  | .internalError500 => true
  | .resp r => headersClean r.headers

/-- The pipeline runs of `n` successive requests against the same bucket. -/
def iteratePipeline (cfg : Config) (rule : Rule) (dk bucket : String) :
    Nat → RedisStore → RedisStore
  | 0, st => st
  | n + 1, st => iteratePipeline cfg rule dk bucket n (runPipeline cfg rule dk bucket st).1

/-- The store evolution of `n` identical requests through
`hypixel::respond_to`. -/
def iterateRequests (cfg : Config) (env : Env) (path : String)
    (principal : JWTPrincipal) : Nat → RedisStore → RedisStore
  | 0, st => st
  | n + 1, st =>
      iterateRequests cfg env path principal n
        (hypixel_respond_to cfg env st path principal).2.1

/-! ## Helper lemmas -/

/-- The bucket key and a rule's accumulated-statistics key never coincide:
one starts with `ratelimit:`, the other with `hypixel:accumulated:`. -/
theorem ratelimit_key_ne_accumulated (p : JWTPrincipal) (r : Rule) :
    p.ratelimit_key ≠ r.accumulated_statistics_key := by
  intro h
  have h2 : (JWTPrincipal.ratelimit_key p).data = (Rule.accumulated_statistics_key r).data :=
    congrArg String.data h
  rw [JWTPrincipal.ratelimit_key, Rule.accumulated_statistics_key,
    String.data_append, String.data_append] at h2
  have hr : "ratelimit:".data = ['r', 'a', 't', 'e', 'l', 'i', 'm', 'i', 't', ':'] := rfl
  have hh : "hypixel:accumulated:".data
      = ['h', 'y', 'p', 'i', 'x', 'e', 'l', ':', 'a', 'c', 'c', 'u', 'm', 'u',
         'l', 'a', 't', 'e', 'd', ':'] := rfl
  rw [hr, hh] at h2
  simp at h2

/-- Command `EXPIRE ... NX` leaves all counters unchanged. -/
theorem expireNX_counters (st : RedisStore) (key : String) (ttl : Nat) :
    (expireNX st key ttl).counters = st.counters := by
  unfold expireNX; cases st.expiries key <;> rfl

/-- Command `EXPIRE ... NX` leaves all sorted sets unchanged. -/
theorem expireNX_zsets (st : RedisStore) (key : String) (ttl : Nat) :
    (expireNX st key ttl).zsets = st.zsets := by
  unfold expireNX; cases st.expiries key <;> rfl

/-- Command `ZINCRBY` leaves all counters unchanged. -/
theorem zincrStore_counters (st : RedisStore) (key member : String) :
    (zincrStore st key member).counters = st.counters := rfl

/-- Command `ZINCRBY` leaves all expiries unchanged. -/
theorem zincrStore_expiries (st : RedisStore) (key member : String) :
    (zincrStore st key member).expiries = st.expiries := rfl

/-- Command `INCR` leaves all sorted sets unchanged. -/
theorem incrStore_zsets (st : RedisStore) (key : String) :
    (incrStore st key).1.zsets = st.zsets := rfl

/-- Command `INCR` leaves all expiries unchanged. -/
theorem incrStore_expiries (st : RedisStore) (key : String) :
    (incrStore st key).1.expiries = st.expiries := rfl

/-- The bucket usage the pipeline reports is the bucket counter plus one:
the two commands ahead of the `INCR` touch only sorted sets and expiries. -/
theorem runPipeline_usage (cfg : Config) (rule : Rule) (dk bucket : String)
    (st : RedisStore) :
    (runPipeline cfg rule dk bucket st).2 = st.counters bucket + 1 := by
  simp [runPipeline, incrStore, expireNX_counters, zincrStore_counters]

/-- Effect of one pipeline run on the store, read back at the three keys it
writes. -/
theorem runPipeline_counters (cfg : Config) (rule : Rule) (dk : String)
    (p : JWTPrincipal) (st : RedisStore) :
    ((runPipeline cfg rule dk p.ratelimit_key st).1.counters p.ratelimit_key
        = st.counters p.ratelimit_key + 1)
    ∧ ((runPipeline cfg rule dk p.ratelimit_key st).1.counters
          rule.accumulated_statistics_key
        = st.counters rule.accumulated_statistics_key + 1)
    ∧ ((runPipeline cfg rule dk p.ratelimit_key st).1.zsets
          rule.request_statistics_key dk
        = st.zsets rule.request_statistics_key dk + 1) := by
  have hne := ratelimit_key_ne_accumulated p rule
  refine ⟨?_, ?_, ?_⟩ <;>
    simp [runPipeline, incrStore, expireNX_counters, expireNX_zsets,
      zincrStore_counters, zincrStore, hne, Ne.symm hne]

/-! ## C5 — token acceptance -/

/-- C5: a presented token is accepted (yielding its embedded principal) iff
its integrity tag verifies under the process key and
`valid_since ≤ now ≤ valid_until`; in particular a well-signed token with
`valid_since = 0` and `valid_until = u64::MAX` verifies at every `now`. -/
theorem C5_token_acceptance (mac : JWTPrincipal → Nat) (req : UrsaRequest)
    (now : Nat) (tok : SignedToken) (p : JWTPrincipal)
    (htok : req.x_ursa_token = some tok) (hnow : now ≤ U64MAX) :
    (verify_existing_login mac req now = .ok (some p) ↔
      (tok.tag = mac tok.principal ∧ p = tok.principal ∧
        p.valid_since ≤ now ∧ now ≤ p.valid_until))
    ∧ (p.valid_since = 0 → p.valid_until = U64MAX →
        verify_existing_login mac { req with x_ursa_token := some (signToken mac p) } now
          = .ok (some p)) := by
  constructor
  · constructor
    · intro h
      by_cases htag : tok.tag = mac tok.principal
      · by_cases h1 : tok.principal.valid_since > now
        · exfalso
          simp [verify_existing_login, htok, verifyToken, htag, h1] at h
        · by_cases h2 : tok.principal.valid_until < now
          · exfalso
            simp [verify_existing_login, htok, verifyToken, htag, h1, h2] at h
          · have hp : p = tok.principal := by
              have := h
              simp [verify_existing_login, htok, verifyToken, htag, h1, h2] at this
              exact this.symm
            subst hp
            exact ⟨htag, rfl, by omega, by omega⟩
      · exfalso
        simp [verify_existing_login, htok, verifyToken, htag] at h
    · rintro ⟨htag, rfl, hs, hu⟩
      have h1 : ¬tok.principal.valid_since > now := by omega
      have h2 : ¬tok.principal.valid_until < now := by omega
      simp [verify_existing_login, htok, verifyToken, htag, h1, h2]
  · intro h0 hmax
    have h1 : ¬p.valid_since > now := by omega
    have h2 : ¬p.valid_until < now := by omega
    simp [verify_existing_login, verifyToken, signToken, h1, h2]

/-- Witness for C5 at `macZero`, `goodTokReq`, `now = 5`. -/
theorem C5_token_acceptance_witness :
    (verify_existing_login macZero goodTokReq 5 = .ok (some goodPrincipal) ↔
      (goodTok.tag = macZero goodTok.principal ∧ goodPrincipal = goodTok.principal ∧
        goodPrincipal.valid_since ≤ 5 ∧ 5 ≤ goodPrincipal.valid_until))
    ∧ (goodPrincipal.valid_since = 0 → goodPrincipal.valid_until = U64MAX →
        verify_existing_login macZero
          { goodTokReq with x_ursa_token := some (signToken macZero goodPrincipal) } 5
          = .ok (some goodPrincipal)) :=
  C5_token_acceptance macZero goodTokReq 5 goodTok goodPrincipal rfl (by decide)

/-! ## C6 — NX expiry semantics of the rate bucket -/

/-- One pipeline run sets the bucket expiry to the configured lifespan when
none is set, and leaves an existing expiry untouched. -/
theorem runPipeline_expiry (cfg : Config) (rule : Rule) (dk bucket : String)
    (st : RedisStore) :
    (runPipeline cfg rule dk bucket st).1.expiries bucket
      = some ((st.expiries bucket).getD cfg.rate_limit_lifespan) := by
  simp only [runPipeline, incrStore_expiries, expireNX, zincrStore_expiries]
  cases h : st.expiries bucket <;> simp [zincrStore_expiries, h]

/-- An expiry, once present, survives any number of further pipeline runs. -/
theorem iteratePipeline_keeps_expiry (cfg : Config) (rule : Rule)
    (dk bucket : String) (e : Nat) (n : Nat) :
    ∀ st : RedisStore, st.expiries bucket = some e →
      (iteratePipeline cfg rule dk bucket n st).expiries bucket = some e := by
  induction n with
  | zero => intro st h; exact h
  | succ m ih =>
    intro st h
    simp only [iteratePipeline]
    apply ih
    rw [runPipeline_expiry, h]
    rfl

/-- C6: inside the atomic pipeline the bucket expiry is set to the configured
window length only when the bucket has no expiry yet (NX), so over any
sequence of requests to the same bucket it is set by the first pipeline run
and never reset or postponed by later ones. -/
theorem C6_expiry_set_once (cfg : Config) (rule : Rule) (dk bucket : String)
    (st : RedisStore) (n : Nat) (hn : 1 ≤ n) :
    ((runPipeline cfg rule dk bucket st).1.expiries bucket
      = some ((st.expiries bucket).getD cfg.rate_limit_lifespan))
    ∧ (st.expiries bucket = none →
        (iteratePipeline cfg rule dk bucket n st).expiries bucket
          = some cfg.rate_limit_lifespan) := by
  refine ⟨runPipeline_expiry cfg rule dk bucket st, ?_⟩
  intro h0
  cases n with
  | zero => omega
  | succ m =>
    simp only [iteratePipeline]
    apply iteratePipeline_keeps_expiry
    rw [runPipeline_expiry, h0]
    rfl

/-- Witness for C6 on the empty store with three requests. -/
theorem C6_expiry_set_once_witness :
    ((runPipeline testConfig testRule "abc-123" "ratelimit:0" emptyStore).1.expiries "ratelimit:0"
      = some ((emptyStore.expiries "ratelimit:0").getD testConfig.rate_limit_lifespan))
    ∧ (emptyStore.expiries "ratelimit:0" = none →
        (iteratePipeline testConfig testRule "abc-123" "ratelimit:0" 3 emptyStore).expiries "ratelimit:0"
          = some testConfig.rate_limit_lifespan) :=
  C6_expiry_set_once testConfig testRule "abc-123" "ratelimit:0" emptyStore 3 (by decide)

/-! ## C1 — handling of invalid or expired tokens -/

/-- C1 fails on the code: with anonymous mode off, a presented token whose
integrity tag does not verify yields the terminal 401 `Failed to verify JWT`
— it is not treated like an absent token, which instead proceeds to fresh
identity verification (here minting a principal from the same headers). -/
theorem C1_counterexample :
    require_login macZero 5 testConfig (.status 200 (some aliceUser)) badTagReq
      = (.response (make_error 401 "Failed to verify JWT"), false)
    ∧ require_login macZero 5 testConfig (.status 200 (some aliceUser)) freshReq
      = (.authed (.Save mintedAlice) mintedAlice, true) := by
  constructor <;> rfl

/-- C1 (amended): with anonymous mode off, a presented token whose tag fails
to verify or whose validity window misses the current time yields the
terminal 401 `Failed to verify JWT` without an external identity call; only
an absent token falls through silently to fresh identity verification. -/
theorem C1_invalid_token_is_terminal_401 (mac : JWTPrincipal → Nat) (now : Nat)
    (cfg : Config) (mojang : MojangResult) (req : UrsaRequest) (tok : SignedToken)
    (hanon : cfg.allow_anonymous = false)
    (htok : req.x_ursa_token = some tok)
    (hbad : tok.tag ≠ mac tok.principal ∨ now < tok.principal.valid_since ∨
      tok.principal.valid_until < now) :
    require_login mac now cfg mojang req
      = (.response (make_error 401 "Failed to verify JWT"), false)
    ∧ require_login mac now cfg mojang { req with x_ursa_token := none }
      = liftAttempt (verify_login_attempt now cfg mojang
          { req with x_ursa_token := none }) := by
  have hv : verify_existing_login mac req now = Except.error () := by
    rcases hbad with hb | hb | hb
    · simp [verify_existing_login, htok, verifyToken, hb]
    · by_cases htag : tok.tag = mac tok.principal
      · simp [verify_existing_login, htok, verifyToken, htag, hb]
      · simp [verify_existing_login, htok, verifyToken, htag]
    · by_cases htag : tok.tag = mac tok.principal
      · simp [verify_existing_login, htok, verifyToken, htag, hb]
      · simp [verify_existing_login, htok, verifyToken, htag]
  constructor
  · simp [require_login, hanon, hv]
  · simp [require_login, hanon, verify_existing_login]

/-- Witness for C1 at `macZero`, `badTagReq`, `now = 5`. -/
theorem C1_invalid_token_is_terminal_401_witness :
    require_login macZero 5 testConfig (.status 200 (some aliceUser)) badTagReq
      = (.response (make_error 401 "Failed to verify JWT"), false)
    ∧ require_login macZero 5 testConfig (.status 200 (some aliceUser))
        { badTagReq with x_ursa_token := none }
      = liftAttempt (verify_login_attempt 5 testConfig (.status 200 (some aliceUser))
          { badTagReq with x_ursa_token := none }) :=
  C1_invalid_token_is_terminal_401 macZero 5 testConfig (.status 200 (some aliceUser))
    badTagReq badTagTok rfl rfl (Or.inl (by decide))

/-! ## C2 — reporting of identity-service failures -/

/-- C2 fails on the code: a transport failure of the external identity call
is not reported as a 401 — the `anyhow` error propagates and `wrap_error`
produces the generic internal 500 instead. -/
theorem C2_counterexample :
    verify_login_attempt 5 testConfig .transportError freshReq = (.internalError, true)
    ∧ (handle_hypixel macZero 5 testConfig transportFailEnv emptyStore freshReq
        "player/abc-123" "/v1/hypixel/player/abc-123").1 = .internalError500
    ∧ (Final.internalError500 ≠ Final.resp (make_error 401 "Unauthorized")) := by
  refine ⟨rfl, rfl, by simp⟩

/-- C2 (amended): with both identity headers present, a non-200 status from
the identity service is reported as 401 Unauthorized; a missing header is a
400 produced before any external call; but a transport failure propagates as
an internal error (the 500 path of `wrap_error`), not as a 401. -/
theorem C2_identity_failure_reporting (now : Nat) (cfg : Config)
    (mojang : MojangResult) (req : UrsaRequest) (u s : String) (code : Nat)
    (user : Option MojangUser)
    (hu : req.x_ursa_username = some u) (hs : req.x_ursa_serverid = some s)
    (hcode : code ≠ 200) :
    verify_login_attempt now cfg (.status code user) req
      = (.rejected (make_error 401 "Unauthorized"), true)
    ∧ verify_login_attempt now cfg .transportError req = (.internalError, true)
    ∧ verify_login_attempt now cfg mojang { req with x_ursa_username := none }
        = (.rejected (make_error 400 "Missing username to authenticate"), false)
    ∧ verify_login_attempt now cfg mojang { req with x_ursa_serverid := none }
        = (.rejected (make_error 400 "Missing serverid to authenticate"), false) := by
  refine ⟨?_, ?_, ?_, ?_⟩
  · simp [verify_login_attempt, hu, hs, hcode]
  · simp [verify_login_attempt, hu, hs]
  · simp [verify_login_attempt]
  · simp [verify_login_attempt, hu]

/-- Witness for C2 at `freshReq`, status 403. -/
theorem C2_identity_failure_reporting_witness :
    verify_login_attempt 5 testConfig (.status 403 none) freshReq
      = (.rejected (make_error 401 "Unauthorized"), true)
    ∧ verify_login_attempt 5 testConfig .transportError freshReq = (.internalError, true)
    ∧ verify_login_attempt 5 testConfig (.status 200 (some aliceUser))
        { freshReq with x_ursa_username := none }
        = (.rejected (make_error 400 "Missing username to authenticate"), false)
    ∧ verify_login_attempt 5 testConfig (.status 200 (some aliceUser))
        { freshReq with x_ursa_serverid := none }
        = (.rejected (make_error 400 "Missing serverid to authenticate"), false) :=
  C2_identity_failure_reporting 5 testConfig (.status 200 (some aliceUser)) freshReq
    "Alice" "s1" 403 none rfl rfl (by decide)

/-! ## C3 — anonymous mode -/

/-- Every error `collectQuery` produces is a 400 `make_error`. -/
theorem collectQuery_error_shape (args parts : List String) (r : UrsaResponse)
    (h : collectQuery args parts = .error r) : ∃ msg, r = make_error 400 msg := by
  induction args generalizing parts with
  | nil =>
    cases parts with
    | nil => simp [collectQuery] at h
    | cons p ps =>
      simp only [collectQuery, Except.error.injEq] at h
      exact ⟨_, h.symm⟩
  | cons a as ih =>
    cases parts with
    | nil =>
      simp only [collectQuery, Except.error.injEq] at h
      exact ⟨_, h.symm⟩
    | cons p ps =>
      simp only [collectQuery] at h
      rcases hcq : collectQuery as ps with r0 | qp <;> rw [hcq] at h <;> simp at h
      subst h
      exact ih ps hcq

/-- With anonymous mode on, every response `hypixel::respond_to` produces has
a status other than 429 and carries no auth header. -/
theorem hypixel_respond_to_anon_resp (cfg : Config) (env : Env) (st : RedisStore)
    (path : String) (principal : JWTPrincipal) (r : UrsaResponse)
    (st' : RedisStore) (up : Option String)
    (hanon : cfg.allow_anonymous = true)
    (h : hypixel_respond_to cfg env st path principal = (.resp r, st', up)) :
    r.status ≠ 429 ∧ headersClean r.headers = true := by
  obtain ⟨mj, ups, rt, rm⟩ := env
  unfold hypixel_respond_to at h
  rcases hfind : findRule cfg.rules path with _ | ⟨rule, rem⟩ <;> rw [hfind] at h
  · simp at h
  · rcases hcq : collectQuery rule.query_arguments (splitSegments rem) with r0 | qp <;>
      simp only [hcq] at h
    · simp only [Prod.mk.injEq, HResult.resp.injEq] at h
      obtain ⟨hr, -, -⟩ := h
      obtain ⟨msg, hmsg⟩ := collectQuery_error_shape _ _ _ hcq
      rw [← hr, hmsg]
      exact ⟨by simp [make_error], by rfl⟩
    · cases rt with
      | true => simp at h
      | false =>
        cases rm with
        | true =>
          simp only [Bool.false_eq_true, if_false, if_true, Prod.mk.injEq,
            HResult.resp.injEq] at h
          obtain ⟨hr, -, -⟩ := h
          rw [← hr]
          exact ⟨by simp [make_error], by rfl⟩
        | false =>
          simp only [Bool.false_eq_true, if_false] at h
          rw [if_neg (by simp [hanon])] at h
          rcases ups with _ | ⟨code, body⟩
          · simp at h
          · by_cases hc : code = 200
            · subst hc
              simp at h
              obtain ⟨hr, -⟩ := h
              subst hr
              exact ⟨by simp, by rfl⟩
            · simp [hc] at h
              obtain ⟨hr, -⟩ := h
              subst hr
              exact ⟨by simp [make_error], by rfl⟩

/-- C3 fails on the code: with anonymous mode on, the rate-limit pipeline
still performs its admission work against the store — the bucket counter of
the synthesized principal moves from 0 to 1 on a request. -/
theorem C3_counterexample :
    (handle_hypixel macZero 5 anonConfig okEnv emptyStore freshReq
        "player/abc-123" "/v1/hypixel/player/abc-123").2.1.counters
        anonymousPrincipal.ratelimit_key = 1
    ∧ emptyStore.counters anonymousPrincipal.ratelimit_key = 0 := by
  constructor <;> rfl

/-- C3 (amended): with anonymous mode on, no external identity call is made,
no request is rejected with 429, and the response never carries
`x-ursa-token` or `x-ursa-expires`; but the store pipeline (counters and
expiry) still runs — only the rejection is bypassed. -/
theorem C3_anonymous_mode (mac : JWTPrincipal → Nat) (now : Nat) (cfg : Config)
    (env : Env) (st : RedisStore) (req : UrsaRequest) (hp fp : String)
    (hanon : cfg.allow_anonymous = true) :
    (handle_hypixel mac now cfg env st req hp fp).2.2.1 = false
    ∧ finalStatus (handle_hypixel mac now cfg env st req hp fp).1 ≠ 429
    ∧ noAuthHeaders (handle_hypixel mac now cfg env st req hp fp).1 = true := by
  have hreq : require_login mac now cfg env.mojang req
      = (.authed .DontSave anonymousPrincipal, false) := by
    simp [require_login, hanon]
  rcases hh : hypixel_respond_to cfg env st hp anonymousPrincipal with ⟨res, st', up⟩
  cases res with
  | internalError =>
    have hfin : handle_hypixel mac now cfg env st req hp fp
        = (.internalError500, st', false, up) := by
      simp [handle_hypixel, hreq, hh]
    rw [hfin]
    exact ⟨rfl, by simp [finalStatus], by rfl⟩
  | noMatch =>
    have hfin : handle_hypixel mac now cfg env st req hp fp
        = (.resp (make_error 404 ("Unknown request path " ++ fp)), st', false, none) := by
      simp [handle_hypixel, hreq, hh]
    rw [hfin]
    exact ⟨rfl, by simp [finalStatus, make_error], by rfl⟩
  | resp r =>
    have hprops := hypixel_respond_to_anon_resp cfg env st hp anonymousPrincipal
      r st' up hanon hh
    have hfin : handle_hypixel mac now cfg env st req hp fp
        = (.resp r, st', false, up) := by
      simp [handle_hypixel, hreq, hh, SaveOnExit.save_to]
    rw [hfin]
    exact ⟨rfl, by simpa [finalStatus] using hprops.1,
      by simpa [noAuthHeaders] using hprops.2⟩

/-- Witness for C3 on `anonConfig` with a healthy environment. -/
theorem C3_anonymous_mode_witness :
    (handle_hypixel macZero 5 anonConfig okEnv emptyStore freshReq
        "player/abc-123" "/v1/hypixel/player/abc-123").2.2.1 = false
    ∧ finalStatus (handle_hypixel macZero 5 anonConfig okEnv emptyStore freshReq
        "player/abc-123" "/v1/hypixel/player/abc-123").1 ≠ 429
    ∧ noAuthHeaders (handle_hypixel macZero 5 anonConfig okEnv emptyStore freshReq
        "player/abc-123" "/v1/hypixel/player/abc-123").1 = true :=
  C3_anonymous_mode macZero 5 anonConfig okEnv emptyStore freshReq
    "player/abc-123" "/v1/hypixel/player/abc-123" rfl

/-! ## C8 — the save directive decorates the final response exactly once -/

/-- C8: once authentication has computed a save directive, every response the
hypixel stage produces — the success response as well as the mid-pipeline
errors (400, 429, 500, 502) — leaves `respond_to` decorated exactly once, as
the very last step, by `save_to`; `Save` appends the signed token and the
expiry header, `SaveExpires` the expiry header only, `DontSave` nothing. -/
theorem C8_save_directive_applied_once (mac : JWTPrincipal → Nat) (now : Nat)
    (cfg : Config) (env : Env) (st : RedisStore) (req : UrsaRequest)
    (hp fp : String) (save : SaveOnExit) (principal : JWTPrincipal) (mcall : Bool)
    (r : UrsaResponse) (st' : RedisStore) (up : Option String) (ts : Nat)
    (hauth : require_login mac now cfg env.mojang req = (.authed save principal, mcall))
    (hresp : hypixel_respond_to cfg env st hp principal = (.resp r, st', up)) :
    handle_hypixel mac now cfg env st req hp fp
      = (.resp (SaveOnExit.save_to mac save r), st', mcall, up)
    ∧ SaveOnExit.save_to mac (.Save principal) r
        = { r with headers := r.headers ++
            [("x-ursa-token", .tok (signToken mac principal)),
             ("x-ursa-expires", .str (toString principal.valid_until))] }
    ∧ SaveOnExit.save_to mac (.SaveExpires ts) r
        = { r with headers := r.headers ++ [("x-ursa-expires", .str (toString ts))] }
    ∧ SaveOnExit.save_to mac .DontSave r = r := by
  refine ⟨?_, rfl, rfl, rfl⟩
  simp [handle_hypixel, hauth, hresp]

/-- Witness for C8 on the healthy end-to-end request. -/
theorem C8_save_directive_applied_once_witness :
    handle_hypixel macZero 5 testConfig okEnv emptyStore freshReq
        "player/abc-123" "/v1/hypixel/player/abc-123"
      = (.resp (SaveOnExit.save_to macZero (.Save mintedAlice) okResp200),
         (hypixel_respond_to testConfig okEnv emptyStore "player/abc-123" mintedAlice).2.1,
         true,
         (hypixel_respond_to testConfig okEnv emptyStore "player/abc-123" mintedAlice).2.2)
    ∧ SaveOnExit.save_to macZero (.Save mintedAlice) okResp200
        = { okResp200 with headers := okResp200.headers ++
            [("x-ursa-token", .tok (signToken macZero mintedAlice)),
             ("x-ursa-expires", .str (toString mintedAlice.valid_until))] }
    ∧ SaveOnExit.save_to macZero (.SaveExpires 42) okResp200
        = { okResp200 with headers := okResp200.headers ++
            [("x-ursa-expires", .str (toString 42))] }
    ∧ SaveOnExit.save_to macZero .DontSave okResp200 = okResp200 :=
  C8_save_directive_applied_once macZero 5 testConfig okEnv emptyStore freshReq
    "player/abc-123" "/v1/hypixel/player/abc-123" (.Save mintedAlice) mintedAlice true
    okResp200
    (hypixel_respond_to testConfig okEnv emptyStore "player/abc-123" mintedAlice).2.1
    (hypixel_respond_to testConfig okEnv emptyStore "player/abc-123" mintedAlice).2.2
    42 rfl rfl

/-! ## C9 — token round trip after a fresh identity verification -/

/-- C9: a principal minted by a successful identity verification, signed into
a token and presented on a later request inside its validity window,
authenticates as the same principal through the existing-token branch
(directive `SaveExpires`), with no external identity call. -/
theorem C9_token_roundtrip (mac : JWTPrincipal → Nat) (now now' : Nat)
    (cfg : Config) (mojang mojang' : MojangResult) (req req' : UrsaRequest)
    (p : JWTPrincipal) (mcall : Bool)
    (hanon : cfg.allow_anonymous = false)
    (hmint : require_login mac now cfg mojang req = (.authed (.Save p) p, mcall))
    (htok : req'.x_ursa_token = some (signToken mac p))
    (hs : p.valid_since ≤ now') (hu : now' ≤ p.valid_until) :
    require_login mac now' cfg mojang' req'
      = (.authed (.SaveExpires p.valid_until) p, false) := by
  have h1 : ¬p.valid_since > now' := by omega
  have h2 : ¬p.valid_until < now' := by omega
  have hv : verify_existing_login mac req' now' = .ok (some p) := by
    simp [verify_existing_login, htok, verifyToken, signToken, h1, h2]
  simp [require_login, hanon, hv]

/-- Witness for C9: `mintedAlice` is minted at `now = 5` from `freshReq`, and
its signed token re-authenticates at `now' = 100`. -/
theorem C9_token_roundtrip_witness :
    require_login macZero 100 testConfig (.status 200 (some aliceUser))
        { freshReq with x_ursa_token := some (signToken macZero mintedAlice) }
      = (.authed (.SaveExpires mintedAlice.valid_until) mintedAlice, false) :=
  C9_token_roundtrip macZero 5 100 testConfig (.status 200 (some aliceUser))
    (.status 200 (some aliceUser)) freshReq
    { freshReq with x_ursa_token := some (signToken macZero mintedAlice) }
    mintedAlice true rfl rfl rfl (by decide) (by decide)

/-! ## C4 — rule-based path translation -/

/-- With exactly as many segments as declared arguments, collection succeeds
and pairs names with segments in order. -/
theorem collectQuery_exact (args parts : List String)
    (h : parts.length = args.length) :
    collectQuery args parts = .ok (args.zip parts) := by
  induction args generalizing parts with
  | nil =>
    cases parts with
    | nil => rfl
    | cons p ps => simp at h
  | cons a as ih =>
    cases parts with
    | nil => simp at h
    | cons p ps =>
      simp only [List.length_cons] at h
      simp only [collectQuery, ih ps (by omega), List.zip_cons_cons]

/-- With fewer segments than declared arguments, collection fails with a 400
naming the first unfilled argument. -/
theorem collectQuery_missing (args parts : List String)
    (h : parts.length < args.length) :
    collectQuery args parts
      = .error (make_error 400 ("Missing query argument "
          ++ args.getD parts.length "")) := by
  induction args generalizing parts with
  | nil => simp at h
  | cons a as ih =>
    cases parts with
    | nil => simp [collectQuery]
    | cons p ps =>
      have hlt : ps.length < as.length := by
        simp only [List.length_cons] at h
        omega
      simp only [collectQuery, ih ps hlt, List.getD_cons_succ, List.length_cons]

/-- With more segments than declared arguments, collection fails with a 400
naming the first extra segment. -/
theorem collectQuery_extra (args parts : List String)
    (h : args.length < parts.length) :
    collectQuery args parts
      = .error (make_error 400 ("Superfluous query argument "
          ++ rustDebug (parts.getD args.length ""))) := by
  induction args generalizing parts with
  | nil =>
    cases parts with
    | nil => simp at h
    | cons p ps => simp [collectQuery]
  | cons a as ih =>
    cases parts with
    | nil => simp at h
    | cons p ps =>
      have hlt : as.length < ps.length := by
        simp only [List.length_cons] at h
        omega
      simp only [collectQuery, ih ps hlt, List.getD_cons_succ, List.length_cons]

/-- C4: for the first rule whose public path leads the request path — with
too few non-empty remaining segments, the result is a 400 naming the first
missing argument, with the store untouched and no upstream call; with too
many, a 400 naming the first extra segment; with exactly as many, translation
pairs each argument name with its segment in order and, whenever the store is
healthy and the request is admitted, the upstream is called on the URL built
from the URL-encoded pairs. -/
theorem C4_path_translation (cfg : Config) (env : Env) (st : RedisStore)
    (path : String) (principal : JWTPrincipal) (rule : Rule) (rem : String)
    (hrule : findRule cfg.rules path = some (rule, rem)) :
    ((splitSegments rem).length < rule.query_arguments.length →
      hypixel_respond_to cfg env st path principal
        = (.resp (make_error 400 ("Missing query argument "
            ++ rule.query_arguments.getD (splitSegments rem).length "")), st, none))
    ∧ (rule.query_arguments.length < (splitSegments rem).length →
      hypixel_respond_to cfg env st path principal
        = (.resp (make_error 400 ("Superfluous query argument "
            ++ rustDebug ((splitSegments rem).getD rule.query_arguments.length ""))),
           st, none))
    ∧ ((splitSegments rem).length = rule.query_arguments.length →
      collectQuery rule.query_arguments (splitSegments rem)
        = .ok (rule.query_arguments.zip (splitSegments rem))
      ∧ (env.redisTransportError = false → env.redisMalformed = false →
          (st.counters principal.ratelimit_key + 1 ≤ cfg.rate_limit_bucket ∨
            cfg.allow_anonymous = true) →
          (hypixel_respond_to cfg env st path principal).2.2
            = some (buildUrl rule.hypixel_path
                (rule.query_arguments.zip (splitSegments rem))))) := by
  refine ⟨?_, ?_, ?_⟩
  · intro hlt
    simp [hypixel_respond_to, hrule, collectQuery_missing _ _ hlt]
  · intro hlt
    simp [hypixel_respond_to, hrule, collectQuery_extra _ _ hlt]
  · intro hlen
    refine ⟨collectQuery_exact _ _ hlen, ?_⟩
    intro hrt hrm hadm
    have hcq := collectQuery_exact rule.query_arguments (splitSegments rem) hlen
    have husage := runPipeline_usage cfg rule (diagnosticsKey (splitSegments rem))
      principal.ratelimit_key st
    have hcond : ¬((runPipeline cfg rule (diagnosticsKey (splitSegments rem))
        principal.ratelimit_key st).2 > cfg.rate_limit_bucket ∧
        ¬cfg.allow_anonymous = true) := by
      rcases hadm with hle | htrue
      · intro hco
        omega
      · intro hco
        exact hco.2 htrue
    simp only [hypixel_respond_to, hrule, hcq, hrt, Bool.false_eq_true, if_false,
      hrm, if_neg hcond]
    rcases env.upstream with _ | ⟨code, body⟩
    · rfl
    · by_cases hc : code = 200 <;> simp [hc]

/-- Witness for C4 on `testRule` at path `player/abc-123`. -/
theorem C4_path_translation_witness :
    ((splitSegments "/abc-123").length < testRule.query_arguments.length →
      hypixel_respond_to testConfig okEnv emptyStore "player/abc-123" mintedAlice
        = (.resp (make_error 400 ("Missing query argument "
            ++ testRule.query_arguments.getD (splitSegments "/abc-123").length "")),
           emptyStore, none))
    ∧ (testRule.query_arguments.length < (splitSegments "/abc-123").length →
      hypixel_respond_to testConfig okEnv emptyStore "player/abc-123" mintedAlice
        = (.resp (make_error 400 ("Superfluous query argument "
            ++ rustDebug ((splitSegments "/abc-123").getD
                testRule.query_arguments.length ""))), emptyStore, none))
    ∧ ((splitSegments "/abc-123").length = testRule.query_arguments.length →
      collectQuery testRule.query_arguments (splitSegments "/abc-123")
        = .ok (testRule.query_arguments.zip (splitSegments "/abc-123"))
      ∧ (okEnv.redisTransportError = false → okEnv.redisMalformed = false →
          (emptyStore.counters mintedAlice.ratelimit_key + 1
              ≤ testConfig.rate_limit_bucket ∨
            testConfig.allow_anonymous = true) →
          (hypixel_respond_to testConfig okEnv emptyStore "player/abc-123"
              mintedAlice).2.2
            = some (buildUrl testRule.hypixel_path
                (testRule.query_arguments.zip (splitSegments "/abc-123"))))) :=
  C4_path_translation testConfig okEnv emptyStore "player/abc-123" mintedAlice
    testRule "/abc-123" rfl

/-! ## C10 — a 429-rejected request has already been counted -/

/-- C10: when `hypixel::respond_to` rejects with 429, the same atomic
pipeline has already, before the admission decision, incremented the bucket
usage counter, the rule's accumulated counter and the per-rule request
statistic; and no upstream call is made for the rejected request. -/
theorem C10_rejected_request_still_counted (cfg : Config) (env : Env)
    (st : RedisStore) (path : String) (principal : JWTPrincipal) (rule : Rule)
    (rem : String) (r : UrsaResponse) (st' : RedisStore) (up : Option String)
    (hrule : findRule cfg.rules path = some (rule, rem))
    (hresp : hypixel_respond_to cfg env st path principal = (.resp r, st', up))
    (h429 : r.status = 429) :
    st'.counters principal.ratelimit_key = st.counters principal.ratelimit_key + 1
    ∧ st'.counters rule.accumulated_statistics_key
        = st.counters rule.accumulated_statistics_key + 1
    ∧ st'.zsets rule.request_statistics_key (diagnosticsKey (splitSegments rem))
        = st.zsets rule.request_statistics_key (diagnosticsKey (splitSegments rem)) + 1
    ∧ up = none := by
  obtain ⟨mj, ups, rt, rm⟩ := env
  unfold hypixel_respond_to at hresp
  rw [hrule] at hresp
  rcases hcq : collectQuery rule.query_arguments (splitSegments rem) with r0 | qp <;>
    simp only [hcq] at hresp
  · simp only [Prod.mk.injEq, HResult.resp.injEq] at hresp
    obtain ⟨hr, -, -⟩ := hresp
    obtain ⟨msg, hmsg⟩ := collectQuery_error_shape _ _ _ hcq
    rw [← hr, hmsg] at h429
    simp [make_error] at h429
  · cases rt with
    | true => simp at hresp
    | false =>
      cases rm with
      | true =>
        simp only [Bool.false_eq_true, if_false, if_true, Prod.mk.injEq,
          HResult.resp.injEq] at hresp
        obtain ⟨hr, -, -⟩ := hresp
        rw [← hr] at h429
        simp [make_error] at h429
      | false =>
        simp only [Bool.false_eq_true, if_false] at hresp
        by_cases hcond : ((runPipeline cfg rule (diagnosticsKey (splitSegments rem))
            principal.ratelimit_key st).2 > cfg.rate_limit_bucket ∧
            ¬cfg.allow_anonymous = true)
        · rw [if_pos hcond] at hresp
          simp only [Prod.mk.injEq, HResult.resp.injEq] at hresp
          obtain ⟨-, hst, hup⟩ := hresp
          obtain ⟨hc1, hc2, hc3⟩ := runPipeline_counters cfg rule
            (diagnosticsKey (splitSegments rem)) principal st
          rw [← hst]
          exact ⟨hc1, hc2, hc3, hup.symm⟩
        · rw [if_neg hcond] at hresp
          rcases ups with _ | ⟨code, body⟩
          · simp at hresp
          · by_cases hc : code = 200
            · subst hc
              simp at hresp
              obtain ⟨hr, -⟩ := hresp
              rw [← hr] at h429
              simp at h429
            · simp [hc] at hresp
              obtain ⟨hr, -⟩ := hresp
              rw [← hr] at h429
              simp [make_error] at h429

/-- Witness for C10: the third request under threshold 2 is rejected and all
three counters have moved. -/
theorem C10_rejected_request_still_counted_witness :
    ((hypixel_respond_to testConfig okEnv twoUsedStore "player/abc-123"
        mintedAlice).2.1.counters mintedAlice.ratelimit_key
      = twoUsedStore.counters mintedAlice.ratelimit_key + 1)
    ∧ ((hypixel_respond_to testConfig okEnv twoUsedStore "player/abc-123"
        mintedAlice).2.1.counters testRule.accumulated_statistics_key
      = twoUsedStore.counters testRule.accumulated_statistics_key + 1)
    ∧ ((hypixel_respond_to testConfig okEnv twoUsedStore "player/abc-123"
        mintedAlice).2.1.zsets testRule.request_statistics_key
          (diagnosticsKey (splitSegments "/abc-123"))
      = twoUsedStore.zsets testRule.request_statistics_key
          (diagnosticsKey (splitSegments "/abc-123")) + 1)
    ∧ (hypixel_respond_to testConfig okEnv twoUsedStore "player/abc-123"
        mintedAlice).2.2 = none :=
  C10_rejected_request_still_counted testConfig okEnv twoUsedStore "player/abc-123"
    mintedAlice testRule "/abc-123"
    (make_error 429 "Rate limit exceeded")
    (hypixel_respond_to testConfig okEnv twoUsedStore "player/abc-123" mintedAlice).2.1
    (hypixel_respond_to testConfig okEnv twoUsedStore "player/abc-123" mintedAlice).2.2
    rfl rfl rfl

/-! ## C7 — N admitted, the (N+1)-th rejected -/

/-- When the request reaches the pipeline (rule matched, argument count
exact, store healthy), the post store is the pipeline's, whatever the
admission decision and the upstream outcome. -/
theorem respond_store_shape (cfg : Config) (env : Env) (st : RedisStore)
    (path : String) (principal : JWTPrincipal) (rule : Rule) (rem : String)
    (hrule : findRule cfg.rules path = some (rule, rem))
    (hlen : (splitSegments rem).length = rule.query_arguments.length)
    (hrt : env.redisTransportError = false) (hrm : env.redisMalformed = false) :
    (hypixel_respond_to cfg env st path principal).2.1
      = (runPipeline cfg rule (diagnosticsKey (splitSegments rem))
          principal.ratelimit_key st).1 := by
  obtain ⟨mj, ups, rt, rm⟩ := env
  cases rt with
  | true => simp at hrt
  | false =>
    cases rm with
    | true => simp at hrm
    | false =>
      have hcq := collectQuery_exact rule.query_arguments (splitSegments rem) hlen
      simp only [hypixel_respond_to, hrule, hcq, Bool.false_eq_true, if_false]
      split
      · rfl
      · cases ups with
        | transportError => rfl
        | status code body => by_cases hc : code = 200 <;> simp [hc]

/-- The admission decision of one pipeline-reaching request: over the
threshold (and not anonymous) means the fixed 429 with no upstream call;
otherwise the request is admitted and the upstream is called on the
translated URL. -/
theorem respond_admit_or_reject (cfg : Config) (env : Env) (st : RedisStore)
    (path : String) (principal : JWTPrincipal) (rule : Rule) (rem : String)
    (hrule : findRule cfg.rules path = some (rule, rem))
    (hlen : (splitSegments rem).length = rule.query_arguments.length)
    (hrt : env.redisTransportError = false) (hrm : env.redisMalformed = false) :
    (((runPipeline cfg rule (diagnosticsKey (splitSegments rem))
          principal.ratelimit_key st).2 > cfg.rate_limit_bucket ∧
        ¬cfg.allow_anonymous = true) →
      hypixel_respond_to cfg env st path principal
        = (.resp (make_error 429 "Rate limit exceeded"),
           (runPipeline cfg rule (diagnosticsKey (splitSegments rem))
             principal.ratelimit_key st).1, none))
    ∧ (¬((runPipeline cfg rule (diagnosticsKey (splitSegments rem))
          principal.ratelimit_key st).2 > cfg.rate_limit_bucket ∧
        ¬cfg.allow_anonymous = true) →
      (hypixel_respond_to cfg env st path principal).1
          ≠ .resp (make_error 429 "Rate limit exceeded")
      ∧ (hypixel_respond_to cfg env st path principal).2.2
          = some (buildUrl rule.hypixel_path
              (rule.query_arguments.zip (splitSegments rem)))) := by
  obtain ⟨mj, ups, rt, rm⟩ := env
  cases rt with
  | true => simp at hrt
  | false =>
    cases rm with
    | true => simp at hrm
    | false =>
      have hcq := collectQuery_exact rule.query_arguments (splitSegments rem) hlen
      constructor
      · intro hcond
        simp only [hypixel_respond_to, hrule, hcq, Bool.false_eq_true, if_false,
          if_pos hcond]
      · intro hcond
        simp only [hypixel_respond_to, hrule, hcq, Bool.false_eq_true, if_false,
          if_neg hcond]
        cases ups with
        | transportError => exact ⟨by simp, rfl⟩
        | status code body =>
          by_cases hc : code = 200
          · subst hc
            simp only [ne_eq, not_true_eq_false, Bool.false_eq_true, if_false,
              ite_false]
            constructor
            · intro hx
              simp only [HResult.resp.injEq] at hx
              have := congrArg UrsaResponse.status hx
              simp [make_error] at this
            · simp
          · simp only [ne_eq, hc, not_false_eq_true, if_true, ite_true]
            constructor
            · intro hx
              simp only [HResult.resp.injEq] at hx
              have := congrArg UrsaResponse.status hx
              simp [make_error] at this
            · simp

/-- The bucket counter after `i` pipeline-reaching requests grows by exactly
`i`. -/
theorem iterateRequests_count (cfg : Config) (env : Env) (st : RedisStore)
    (path : String) (principal : JWTPrincipal) (rule : Rule) (rem : String)
    (hrule : findRule cfg.rules path = some (rule, rem))
    (hlen : (splitSegments rem).length = rule.query_arguments.length)
    (hrt : env.redisTransportError = false) (hrm : env.redisMalformed = false)
    (i : Nat) :
    (iterateRequests cfg env path principal i st).counters principal.ratelimit_key
      = st.counters principal.ratelimit_key + i := by
  induction i generalizing st with
  | zero => simp [iterateRequests]
  | succ m ih =>
    simp only [iterateRequests]
    rw [ih, respond_store_shape cfg env st path principal rule rem hrule hlen hrt hrm,
      (runPipeline_counters cfg rule (diagnosticsKey (splitSegments rem)) principal st).1]
    omega

/-- C7: with threshold `N` and anonymous mode off, each of the first `N`
requests on a fresh bucket is admitted (no 429, the upstream is called on the
translated URL) and the `(N+1)`-th is rejected with the 429 response and no
upstream call. -/
theorem C7_threshold_behaviour (cfg : Config) (env : Env) (st : RedisStore)
    (path : String) (principal : JWTPrincipal) (rule : Rule) (rem : String)
    (N i : Nat)
    (hanon : cfg.allow_anonymous = false)
    (hrule : findRule cfg.rules path = some (rule, rem))
    (hlen : (splitSegments rem).length = rule.query_arguments.length)
    (hrt : env.redisTransportError = false) (hrm : env.redisMalformed = false)
    (hfresh : st.counters principal.ratelimit_key = 0)
    (hN : cfg.rate_limit_bucket = N) (hi : i < N) :
    ((hypixel_respond_to cfg env (iterateRequests cfg env path principal i st)
        path principal).1 ≠ .resp (make_error 429 "Rate limit exceeded")
      ∧ (hypixel_respond_to cfg env (iterateRequests cfg env path principal i st)
          path principal).2.2
        = some (buildUrl rule.hypixel_path
            (rule.query_arguments.zip (splitSegments rem))))
    ∧ hypixel_respond_to cfg env (iterateRequests cfg env path principal N st)
        path principal
      = (.resp (make_error 429 "Rate limit exceeded"),
         (runPipeline cfg rule (diagnosticsKey (splitSegments rem))
           principal.ratelimit_key
           (iterateRequests cfg env path principal N st)).1, none) := by
  constructor
  · apply (respond_admit_or_reject cfg env
      (iterateRequests cfg env path principal i st) path principal rule rem
      hrule hlen hrt hrm).2
    rw [runPipeline_usage,
      iterateRequests_count cfg env st path principal rule rem hrule hlen hrt hrm i,
      hfresh]
    intro hco
    omega
  · apply (respond_admit_or_reject cfg env
      (iterateRequests cfg env path principal N st) path principal rule rem
      hrule hlen hrt hrm).1
    rw [runPipeline_usage,
      iterateRequests_count cfg env st path principal rule rem hrule hlen hrt hrm N,
      hfresh]
    exact ⟨by omega, by simp [hanon]⟩

/-- Witness for C7 at threshold 2: the second request is admitted, the third
is rejected with no upstream call. -/
theorem C7_threshold_behaviour_witness :
    ((hypixel_respond_to testConfig okEnv
        (iterateRequests testConfig okEnv "player/abc-123" mintedAlice 1 emptyStore)
        "player/abc-123" mintedAlice).1
        ≠ .resp (make_error 429 "Rate limit exceeded")
      ∧ (hypixel_respond_to testConfig okEnv
          (iterateRequests testConfig okEnv "player/abc-123" mintedAlice 1 emptyStore)
          "player/abc-123" mintedAlice).2.2
        = some (buildUrl testRule.hypixel_path
            (testRule.query_arguments.zip (splitSegments "/abc-123"))))
    ∧ hypixel_respond_to testConfig okEnv
        (iterateRequests testConfig okEnv "player/abc-123" mintedAlice 2 emptyStore)
        "player/abc-123" mintedAlice
      = (.resp (make_error 429 "Rate limit exceeded"),
         (runPipeline testConfig testRule (diagnosticsKey (splitSegments "/abc-123"))
           mintedAlice.ratelimit_key
           (iterateRequests testConfig okEnv "player/abc-123" mintedAlice 2 emptyStore)).1,
         none) :=
  C7_threshold_behaviour testConfig okEnv emptyStore "player/abc-123" mintedAlice
    testRule "/abc-123" 2 1 rfl rfl rfl rfl rfl rfl rfl (by decide)

end UrsaMinor
